import Mathlib

/-!
Verification development for the financial-news ETL pipeline
(scripts: extract_news.py, validate_data.py, transform_sentiment.py,
load_to_database.py, run_pipeline.py).

Modelling conventions (shallow embedding):
* A pandas DataFrame is a `Table`: a list of rows together with Boolean
  flags recording which of the relevant columns are present.  A cell is
  an `Option` value, `none` modelling NaN/null.
* Timestamps are modelled by integers (epoch seconds).  A `publishedAt`
  cell is a `TimeVal`: `raw t` models an unparsed string cell whose
  parse denotes instant `t`, `parsed t` models a `pd.Timestamp` cell.
  `pd.to_datetime` maps `raw t` to `parsed t` (distinct raw strings are
  assumed to denote distinct instants).  The ambient wall clock
  `datetime.now()` is passed explicitly as an integer argument `now`.
* Python floats are modelled by `ℚ` (the spec states the reported
  percentage is exact up to floating rounding).
* Code that can raise an exception is modelled with `Option` (for
  `validate_news_data`, where a missing mandatory column raises
  `KeyError` and an all-null timestamp column raises in `strftime`) or
  with `StageResult` (for the pipeline runner, which catches stage
  exceptions).
* The VADER sentiment analyzer and the HTTP layer are external
  collaborators; they enter as explicit parameters (`analyzer`,
  `ApiResult`).
-/

namespace FinNews

/-- A timestamp cell: `raw t` is a still-unparsed string denoting epoch
second `t`; `parsed t` is a timezone-aware `pd.Timestamp` for `t`. -/
inductive TimeVal : Type
  | raw (t : Int)
  | parsed (t : Int)
deriving DecidableEq, Repr

/-- The underlying instant of a timestamp cell. -/
def TimeVal.value : TimeVal → Int
  | .raw t => t
  | .parsed t => t

/-- The effect of `pd.to_datetime` on one timestamp cell. -/
def TimeVal.toDatetime : TimeVal → TimeVal
  | .raw t => .parsed t
  | .parsed t => .parsed t

/-- One row of an article table.  `none` models a null cell. -/
structure Row : Type where
  title : Option String
  description : Option String
  url : Option String
  publishedAt : Option TimeVal
  source_name : Option String
  extracted_at : Option Int
deriving DecidableEq, Repr

/-- An article DataFrame: per-column presence flags plus the rows.
A field of a row is only meaningful when the matching flag is true. -/
structure Table : Type where
  hasTitle : Bool
  hasDescription : Bool
  hasUrl : Bool
  hasPublishedAt : Bool
  hasSourceName : Bool
  hasExtractedAt : Bool
  rows : List Row
deriving DecidableEq, Repr

/-- The empty DataFrame `pd.DataFrame()`. -/
def emptyTable : Table :=
  { hasTitle := false, hasDescription := false, hasUrl := false,
    hasPublishedAt := false, hasSourceName := false, hasExtractedAt := false,
    rows := [] }

/-! ## Extractor (`extract_news.py`, `extract_financial_news`) -/

/-- The JSON value found under an article object `source` key:
either a dict (with an optional `name` entry) or a non-dict value. -/
inductive SourceVal : Type
  | dict (name : Option String)
  | nonDict
deriving DecidableEq, Repr

/-- One article object of the API response.  `none` models an absent or
null field. -/
structure Article : Type where
  title : Option String
  description : Option String
  url : Option String
  publishedAt : Option Int
  source : Option SourceVal
deriving DecidableEq, Repr

/-- The decoded JSON envelope of the API response; `none` in `status`
or `articles` models a missing key (a lookup raises `KeyError`). -/
structure Envelope : Type where
  status : Option String
  message : Option String
  articles : Option (List Article)
deriving DecidableEq, Repr

/-- The body of an HTTP response: either not valid JSON
(`response.json()` raises) or a decoded envelope. -/
inductive Body : Type
  | malformed
  | json (envelope : Envelope)
deriving DecidableEq, Repr

/-- Outcome of `requests.get`: a `RequestException` (network failure,
timeout, connection error) or a response with a status code and body. -/
inductive ApiResult : Type
  | requestError (msg : String)
  | response (statusCode : Nat) (body : Body)
deriving DecidableEq, Repr

/-- Source-name normalisation, line 69-71 of `extract_news.py`:
`x.get('name', 'Unknown') if isinstance(x, dict) else 'Unknown'`;
a missing `source` key yields NaN, which is not a dict. -/
def sourceNameOf : Option SourceVal → String
  | some (.dict (some n)) => n
  | some (.dict none) => "Unknown"
  | some .nonDict => "Unknown"
  | none => "Unknown"

/-- Conversion of one raw article into a DataFrame row: nested source
flattened, `publishedAt` parsed by `pd.to_datetime`, and the row
stamped with the extraction time (lines 64-77 of `extract_news.py`). -/
def articleToRow (now : Int) (a : Article) : Row :=
  { title := a.title, description := a.description, url := a.url,
    publishedAt := a.publishedAt.map (fun t => TimeVal.parsed t),
    source_name := some (sourceNameOf a.source),
    extracted_at := some now }

/-- The table built from a non-empty article list. -/
def buildRawTable (now : Int) (articles : List Article) : Table :=
  { hasTitle := true, hasDescription := true, hasUrl := true,
    hasPublishedAt := true, hasSourceName := true, hasExtractedAt := true,
    rows := articles.map (articleToRow now) }

/-- Shallow embedding of `extract_financial_news` (lines 53-93 of
`extract_news.py`).  Every exception path of the source is caught
inside the function and returns an empty DataFrame:
`raise_for_status` raises `HTTPError` (a `RequestException`) exactly
for status codes 400-599; `response.json()` on a malformed body,
`data['status']` / `data['articles']` on a missing key, raise
exceptions caught by the generic handler.  Totality of this function
is the model of "never raises to the caller". -/
def extract_financial_news (api : ApiResult) (now : Int) : Table :=
  match api with
  | .requestError _ => emptyTable
  | .response statusCode body =>
    if 400 ≤ statusCode ∧ statusCode < 600 then emptyTable
    else
      match body with
      | .malformed => emptyTable
      | .json envelope =>
        match envelope.status with
        | none => emptyTable
        | some st =>
          if st = "ok" then
            match envelope.articles with
            | none => emptyTable
            | some articles =>
              if articles.isEmpty then emptyTable
              else buildRawTable now articles
          else emptyTable

/-! ## Validator (`validate_data.py`, `validate_news_data`) -/

/-- The pandas key used by checks 2 and by cleaning:
the `(title, publishedAt)` pair of a row. -/
def rowKey (r : Row) : Option String × Option TimeVal :=
  (r.title, r.publishedAt)

/-- Helper for `df.duplicated(subset=['title','publishedAt']).sum()`:
counts the rows whose key was already seen (pandas marks every
occurrence after the first; NaN keys compare equal). -/
def dupCountFrom (seen : List (Option String × Option TimeVal)) :
    List Row → Nat
  | [] => 0
  | r :: rs =>
    (if rowKey r ∈ seen then 1 else 0) + dupCountFrom (rowKey r :: seen) rs

/-- Check 2 of `validate_news_data` (line 56): the number of duplicate
`(title, publishedAt)` rows. -/
def duplicateCount (rows : List Row) : Nat := dupCountFrom [] rows

/-- Helper for `drop_duplicates(subset=['title','publishedAt'])`:
keeps the first occurrence of each key. -/
def dedupFrom (seen : List (Option String × Option TimeVal)) :
    List Row → List Row
  | [] => []
  | r :: rs =>
    if rowKey r ∈ seen then dedupFrom seen rs
    else r :: dedupFrom (rowKey r :: seen) rs

/-- `df.drop_duplicates(subset=['title','publishedAt'])` (line 116). -/
def dedupRows (rows : List Row) : List Row := dedupFrom [] rows

/-- Missing-value counts of check 1 (lines 37-52): per critical field,
the null count, or the full row count when the column is absent. -/
structure MissingCounts : Type where
  title : Nat
  description : Nat
  url : Nat
  publishedAt : Nat
deriving DecidableEq, Repr

/-- Check 1 of `validate_news_data`, computed on the input table. -/
def missingCounts (df : Table) : MissingCounts :=
  { title :=
      if df.hasTitle then (df.rows.filter (fun r => r.title.isNone)).length
      else df.rows.length,
    description :=
      if df.hasDescription then
        (df.rows.filter (fun r => r.description.isNone)).length
      else df.rows.length,
    url :=
      if df.hasUrl then (df.rows.filter (fun r => r.url.isNone)).length
      else df.rows.length,
    publishedAt :=
      if df.hasPublishedAt then
        (df.rows.filter (fun r => r.publishedAt.isNone)).length
      else df.rows.length }

/-- The freshness sub-report of check 3 (lines 81-85). -/
structure FreshnessReport : Type where
  oldest : Int
  newest : Int
  span_days : Int
deriving DecidableEq, Repr

/-- Check 3 of `validate_news_data` (lines 66-85), applied to the table
whose `publishedAt` column was already parsed: min/max over the
non-null timestamps and the whole-day age of the oldest one
(`timedelta.days` floors, hence `Int.fdiv`).  When every timestamp is
null the min is `NaT` and `strftime` raises, modelled by `none`. -/
def freshnessReport (now : Int) (rows : List Row) : Option FreshnessReport :=
  match rows.filterMap (fun r => r.publishedAt.map TimeVal.value) with
  | [] => none
  | t :: ts =>
    some { oldest := ts.foldl min t, newest := ts.foldl max t,
           span_days := Int.fdiv (now - ts.foldl min t) 86400 }

/-- Line 67 of `validate_data.py`:
`df['publishedAt'] = pd.to_datetime(df['publishedAt'], utc=True)` —
the input table's own column is replaced in place. -/
def parseTimestamps (df : Table) : Table :=
  { df with
    rows := df.rows.map (fun r =>
      { r with publishedAt := r.publishedAt.map TimeVal.toDatetime }) }

/-- A title passes the length filter `title.str.len() >= 10`
(a null cell compares false). -/
def titleOK (r : Row) : Bool :=
  match r.title with
  | some s => 10 ≤ s.length
  | none => false

/-- A description passes the length filter
`description.str.len() >= 20` (a null cell compares false). -/
def descOK (r : Row) : Bool :=
  match r.description with
  | some s => 20 ≤ s.length
  | none => false

/-- The content-quality sub-report of check 4 (lines 90-98): counts of
non-null short titles and short descriptions (`str.len() < 10`,
`< 20`; a NaN comparison is false, an absent column counts 0). -/
structure ContentQuality : Type where
  short_titles : Nat
  short_descriptions : Nat
deriving DecidableEq, Repr

/-- Check 4 of `validate_news_data`. -/
def contentQuality (df : Table) : ContentQuality :=
  { short_titles :=
      if df.hasTitle then
        (df.rows.filter (fun r =>
          match r.title with
          | some s => s.length < 10
          | none => false)).length
      else 0,
    short_descriptions :=
      if df.hasDescription then
        (df.rows.filter (fun r =>
          match r.description with
          | some s => s.length < 20
          | none => false)).length
      else 0 }

/-- The cleaning phase (lines 109-124): on a copy of the (possibly
timestamp-parsed) table, drop rows with null title or description,
drop duplicate `(title, publishedAt)` pairs keeping the first
occurrence, then drop short titles and short descriptions (each
length filter only when its column exists). -/
def cleanTable (df : Table) : Table :=
  { df with
    rows :=
      let r1 := df.rows.filter
        (fun r => r.title.isSome && r.description.isSome)
      let r2 := dedupRows r1
      let r3 := if df.hasTitle then r2.filter titleOK else r2
      if df.hasDescription then r3.filter descOK else r3 }

/-- Overall status of a quality report. -/
inductive Status : Type
  | PASSED
  | WARNING
  | FAILED
deriving DecidableEq, Repr

/-- The four check sub-reports (`quality_report['checks']`); the
freshness entry is only sometimes written. -/
structure Checks : Type where
  missing_values : MissingCounts
  duplicates : Nat
  freshness : Option FreshnessReport
  content_quality : ContentQuality
deriving DecidableEq, Repr

/-- The quality report.  Fields other than `status` and `reason` are
`Option`s because the empty-input report carries none of them. -/
structure QualityReport : Type where
  status : Status
  reason : Option String
  initial_records : Option Nat
  checks : Option Checks
  final_records : Option Nat
  removed_records : Option Nat
  removal_percentage : Option ℚ
deriving DecidableEq, Repr

/-- The report returned for an empty input (line 23):
`{'status': 'FAILED', 'reason': 'Empty dataframe'}`. -/
def emptyInputReport : QualityReport :=
  { status := .FAILED, reason := some "Empty dataframe",
    initial_records := none, checks := none, final_records := none,
    removed_records := none, removal_percentage := none }

/-- The report built for a non-empty run (lines 28-147), given the
original table `df`, the table `df3` left by the check phase, and the
cleaned table. -/
def mkReport (now : Int) (df df3 cleaned : Table) : QualityReport :=
  let initial := df.rows.length
  let final := cleaned.rows.length
  let removed := initial - final
  let pct : ℚ := (removed : ℚ) / (initial : ℚ) * 100
  { status :=
      if final = 0 then .FAILED
      else if 50 < pct then .WARNING
      else .PASSED,
    reason :=
      if final = 0 then some "No records after cleaning"
      else if 50 < pct then some "High removal rate"
      else none,
    initial_records := some initial,
    checks := some
      { missing_values := missingCounts df,
        duplicates := duplicateCount df.rows,
        freshness :=
          if duplicateCount df.rows = 0 ∧ df.hasPublishedAt = true then
            freshnessReport now (parseTimestamps df).rows
          else none,
        content_quality := contentQuality df3 },
    final_records := some final,
    removed_records := some removed,
    removal_percentage := some pct }

/-- The check phase (lines 35-103) viewed as its effect on the caller's
table, with `none` for the exception paths: check 2 raises `KeyError`
when `title` or `publishedAt` is absent; when no duplicates are found
check 3 parses the `publishedAt` column in place and raises in
`strftime` when the parsed column holds no non-null timestamp. -/
def checkPhase (now : Int) (df : Table) : Option Table :=
  if df.hasTitle && df.hasPublishedAt then
    if duplicateCount df.rows = 0 then
      if df.hasPublishedAt then
        if (freshnessReport now (parseTimestamps df).rows).isSome then
          some (parseTimestamps df)
        else none
      else some df
    else some df
  else none

/-- The full observable outcome of a successful `validate_news_data`
call: the caller's table as left after the call (check 3 may have
replaced its `publishedAt` column in place), the returned cleaned
table, and the returned report. -/
structure ValidateResult : Type where
  inputAfter : Table
  cleaned : Table
  report : QualityReport
deriving DecidableEq, Repr

/-- Shallow embedding of `validate_news_data` (lines 8-151 of
`validate_data.py`).  `none` models an uncaught exception (missing
mandatory column at check 2 / `dropna`, or `strftime` on `NaT`).
An empty input returns immediately with the input table and the
two-field report.  Otherwise the checks run, then the cleaning runs on
a copy of the table left by the checks, and the report is assembled
(the `dropna(subset=['title','description'])` call raises when the
`description` column is absent). -/
def validate_news_data (now : Int) (df : Table) : Option ValidateResult :=
  if df.rows.isEmpty then some ⟨df, df, emptyInputReport⟩
  else
    (checkPhase now df).bind (fun df3 =>
      if df3.hasDescription then
        some ⟨df3, cleanTable df3, mkReport now df df3 (cleanTable df3)⟩
      else none)

/-! ## Transformer (`transform_sentiment.py`, `add_sentiment_analysis`) -/

/-- The four scores returned by
`SentimentIntensityAnalyzer.polarity_scores`. -/
structure SentimentScores : Type where
  compound : ℚ
  pos : ℚ
  neg : ℚ
  neu : ℚ
deriving DecidableEq, Repr

/-- The text of one cell as seen by `str(row.get(field, ''))`:
an absent column yields the empty string, a NaN cell the string
`"nan"`, otherwise the cell text itself. -/
def cellText (hasCol : Bool) (v : Option String) : String :=
  if hasCol then
    match v with
    | some s => s
    | none => "nan"
  else ""

/-- The text scored for one row (line 34 of `transform_sentiment.py`):
title and description joined by one space. -/
def articleText (df : Table) (r : Row) : String :=
  cellText df.hasTitle r.title ++ " " ++ cellText df.hasDescription r.description

/-- The inner `analyze_article` of `add_sentiment_analysis`
(lines 32-44), with the external VADER analyzer as a parameter. -/
def analyze_article (analyzer : String → SentimentScores) (df : Table)
    (r : Row) : SentimentScores :=
  analyzer (articleText df r)

/-- `categorize_sentiment` (lines 53-59 of `transform_sentiment.py`):
threshold the compound score at plus or minus 0.05. -/
def categorize_sentiment (compound_score : ℚ) : String :=
  if (5 : ℚ) / 100 ≤ compound_score then "positive"
  else if compound_score ≤ -((5 : ℚ) / 100) then "negative"
  else "neutral"

/-- Calendar date of an epoch-second timestamp as days since the epoch
(`.dt.date`). -/
def dateOf (t : Int) : Int := Int.fdiv t 86400

/-- Hour of day of an epoch-second timestamp (`.dt.hour`). -/
def hourOf (t : Int) : Int := Int.fdiv (Int.emod t 86400) 3600

/-- Day name of an epoch-second timestamp (`.dt.day_name()`); the epoch
day 1970-01-01 was a Thursday. -/
def dayNameOf (t : Int) : String :=
  ["Monday", "Tuesday", "Wednesday", "Thursday",
   "Friday", "Saturday", "Sunday"].getD (Int.emod (dateOf t + 3) 7).toNat ""

/-- One row of the transformer's output: the input row plus the four
sentiment scores, the derived label, and the calendar features. -/
structure EnrichedRow : Type where
  title : Option String
  description : Option String
  url : Option String
  publishedAt : Option TimeVal
  source_name : Option String
  extracted_at : Option Int
  sentiment_compound : ℚ
  sentiment_positive : ℚ
  sentiment_negative : ℚ
  sentiment_neutral : ℚ
  sentiment_label : String
  date : Option Int
  hour : Option Int
  day_of_week : Option String
deriving DecidableEq, Repr

/-- The transformer's output table, with presence flags for the columns
the loader later looks up (the sentiment columns are always added). -/
structure EnrichedTable : Type where
  hasTitle : Bool
  hasDescription : Bool
  hasUrl : Bool
  hasSourceName : Bool
  hasPublishedAt : Bool
  hasDate : Bool
  hasHour : Bool
  hasExtractedAt : Bool
  rows : List EnrichedRow
deriving DecidableEq, Repr

/-- Enrichment of one row (lines 32-70 of `transform_sentiment.py`):
score the joined text, attach the four scores and the label, and when
the `publishedAt` column exists parse it and derive date, hour and day
name (null timestamps give null features). -/
def enrichRow (analyzer : String → SentimentScores) (df : Table)
    (r : Row) : EnrichedRow :=
  let s := analyze_article analyzer df r
  { title := r.title, description := r.description, url := r.url,
    publishedAt :=
      if df.hasPublishedAt then r.publishedAt.map TimeVal.toDatetime
      else r.publishedAt,
    source_name := r.source_name, extracted_at := r.extracted_at,
    sentiment_compound := s.compound, sentiment_positive := s.pos,
    sentiment_negative := s.neg, sentiment_neutral := s.neu,
    sentiment_label := categorize_sentiment s.compound,
    date :=
      if df.hasPublishedAt then
        r.publishedAt.map (fun tv => dateOf tv.value)
      else none,
    hour :=
      if df.hasPublishedAt then
        r.publishedAt.map (fun tv => hourOf tv.value)
      else none,
    day_of_week :=
      if df.hasPublishedAt then
        r.publishedAt.map (fun tv => dayNameOf tv.value)
      else none }

/-- Shallow embedding of `add_sentiment_analysis` (lines 9-92 of
`transform_sentiment.py`).  An empty input is returned unchanged (the
source returns the input frame without sentiment columns; here an
enriched table with no rows and no derived columns).  Otherwise every
row is scored and enriched; the calendar columns exist exactly when
the input had a `publishedAt` column. -/
def add_sentiment_analysis (analyzer : String → SentimentScores)
    (df : Table) : EnrichedTable :=
  if df.rows.isEmpty then
    { hasTitle := df.hasTitle, hasDescription := df.hasDescription,
      hasUrl := df.hasUrl, hasSourceName := df.hasSourceName,
      hasPublishedAt := df.hasPublishedAt, hasDate := false,
      hasHour := false, hasExtractedAt := df.hasExtractedAt, rows := [] }
  else
    { hasTitle := df.hasTitle, hasDescription := df.hasDescription,
      hasUrl := df.hasUrl, hasSourceName := df.hasSourceName,
      hasPublishedAt := df.hasPublishedAt, hasDate := df.hasPublishedAt,
      hasHour := df.hasPublishedAt, hasExtractedAt := df.hasExtractedAt,
      rows := df.rows.map (enrichRow analyzer df) }

/-- Mean compound score, as computed for the step-3 summary message
(`df_final['sentiment_compound'].mean()`). -/
def avgCompound (df : EnrichedTable) : ℚ :=
  (df.rows.map (fun r => r.sentiment_compound)).sum / (df.rows.length : ℚ)

/-! ## Loader (`load_to_database.py`, `load_to_duckdb`) -/

/-- One row of the `news_sentiment` database table: the fixed
thirteen-column schema of lines 35-51 (no `day_of_week` column). -/
structure DbRow : Type where
  title : Option String
  description : Option String
  url : Option String
  source_name : Option String
  publishedAt : Option TimeVal
  date : Option Int
  hour : Option Int
  sentiment_compound : ℚ
  sentiment_positive : ℚ
  sentiment_negative : ℚ
  sentiment_neutral : ℚ
  sentiment_label : String
  extracted_at : Option Int
deriving DecidableEq, Repr

/-- The state of the DuckDB file: the `news_sentiment` table, or `none`
when it does not exist. -/
def Database : Type := Option (List DbRow)

/-- Row count of the `news_sentiment` table, when it exists. -/
def dbCount (db : Database) : Option Nat :=
  Option.map List.length db

/-- One inserted row (lines 55-81): all thirteen columns, where
`extracted_at` is filled with `datetime.now()` when the input lacked
that column (line 59-60); the `date` coercion of lines 63-64 is the
identity on an already-date-valued model. -/
def toDbRow (hasExtractedAt : Bool) (now : Int) (r : EnrichedRow) : DbRow :=
  { title := r.title, description := r.description, url := r.url,
    source_name := r.source_name, publishedAt := r.publishedAt,
    date := r.date, hour := r.hour,
    sentiment_compound := r.sentiment_compound,
    sentiment_positive := r.sentiment_positive,
    sentiment_negative := r.sentiment_negative,
    sentiment_neutral := r.sentiment_neutral,
    sentiment_label := r.sentiment_label,
    extracted_at := if hasExtractedAt then r.extracted_at else some now }

/-- Whether, after the loader adds `extracted_at` when missing, all
thirteen schema columns are available (lines 67-76), so that
`INSERT INTO news_sentiment SELECT *` matches the column count. -/
def allColumnsPresent (df : EnrichedTable) : Bool :=
  df.hasTitle && df.hasDescription && df.hasUrl && df.hasSourceName &&
  df.hasPublishedAt && df.hasDate && df.hasHour

/-- Shallow embedding of `load_to_duckdb` (lines 9-116 of
`load_to_database.py`), as a transition on the database state paired
with the returned success Boolean.  An empty input returns `false`
before touching the database.  Otherwise the table is dropped and
recreated; when every schema column is available the insert fills the
new table, else the insert raises (column-count mismatch), the
exception is caught and `false` returned, leaving the freshly created
empty table behind (each DuckDB statement autocommits). -/
def load_to_duckdb (df : EnrichedTable) (now : Int) (db : Database) :
    Database × Bool :=
  if df.rows.isEmpty then (db, false)
  else if allColumnsPresent df then
    (some (df.rows.map (toDbRow df.hasExtractedAt now)), true)
  else (some [], false)

/-! ## Runner (`run_pipeline.py`, `run_full_pipeline`) -/

/-- The four pipeline stages, used both as step keys of the status
record and as entries of the invocation trace. -/
inductive StageCall : Type
  | extractStage
  | validateStage
  | transformStage
  | loadStage
deriving DecidableEq, Repr

/-- Outcome of calling one stage function (together with its `save_*`
companion inside the same `try`): a returned value or a raised
exception. -/
inductive StageResult (α : Type) : Type
  | ok (a : α)
  | exc (msg : String)
deriving DecidableEq, Repr

/-- The behaviour of the four stage calls as seen by the runner.  The
runner's control flow depends only on these outcomes, so the claims
about it quantify over this record. -/
structure PipelineEnv : Type where
  extract : StageResult Table
  validate : Table → StageResult (Table × QualityReport)
  transform : Table → StageResult EnrichedTable
  load : EnrichedTable → StageResult Bool

/-- Overall pipeline run status. -/
inductive RunStatus : Type
  | SUCCESS
  | WARNING
  | FAILED
deriving DecidableEq, Repr

/-- The per-step outcome strings of `pipeline_status['steps']`, with
their dynamic parts carried as data. -/
inductive StepOutcome : Type
  | extractOk (articles : Nat)
  | extractNoData
  | extractExc (msg : String)
  | validateOk (cleanRecords : Nat)
  | validateNoCleanData
  | validateExc (msg : String)
  | transformOk (avgSentiment : ℚ)
  | transformEmpty
  | transformExc (msg : String)
  | loadOk (records : Nat)
  | loadFailed
  | loadExc (msg : String)
deriving DecidableEq, Repr

/-- The `pipeline_status` record as finally returned. -/
structure PipelineStatus : Type where
  steps : List (StageCall × StepOutcome)
  overall_status : RunStatus
deriving DecidableEq, Repr

/-- Shallow embedding of `run_full_pipeline` (lines 12-141 of
`run_pipeline.py`): the returned status record, paired with the trace
of stage functions actually invoked.  Extract, validate and transform
halt the run with `FAILED` on an exception or an empty result; a load
failure (returned `false` or exception) degrades the run to `WARNING`
after all four stages ran. -/
def run_full_pipeline (env : PipelineEnv) : PipelineStatus × List StageCall :=
  match env.extract with
  | .exc e =>
    (⟨[(.extractStage, .extractExc e)], .FAILED⟩, [.extractStage])
  | .ok dfRaw =>
    if dfRaw.rows.isEmpty then
      (⟨[(.extractStage, .extractNoData)], .FAILED⟩, [.extractStage])
    else
      let s1 := (StageCall.extractStage, StepOutcome.extractOk dfRaw.rows.length)
      match env.validate dfRaw with
      | .exc e =>
        (⟨[s1, (.validateStage, .validateExc e)], .FAILED⟩,
         [.extractStage, .validateStage])
      | .ok (dfClean, _report) =>
        if dfClean.rows.isEmpty then
          (⟨[s1, (.validateStage, .validateNoCleanData)], .FAILED⟩,
           [.extractStage, .validateStage])
        else
          let s2 := (StageCall.validateStage,
                     StepOutcome.validateOk dfClean.rows.length)
          match env.transform dfClean with
          | .exc e =>
            (⟨[s1, s2, (.transformStage, .transformExc e)], .FAILED⟩,
             [.extractStage, .validateStage, .transformStage])
          | .ok dfFinal =>
            if dfFinal.rows.isEmpty then
              (⟨[s1, s2, (.transformStage, .transformEmpty)], .FAILED⟩,
               [.extractStage, .validateStage, .transformStage])
            else
              let s3 := (StageCall.transformStage,
                         StepOutcome.transformOk (avgCompound dfFinal))
              match env.load dfFinal with
              | .exc e =>
                (⟨[s1, s2, s3, (.loadStage, .loadExc e)], .WARNING⟩,
                 [.extractStage, .validateStage, .transformStage, .loadStage])
              | .ok false =>
                (⟨[s1, s2, s3, (.loadStage, .loadFailed)], .WARNING⟩,
                 [.extractStage, .validateStage, .transformStage, .loadStage])
              | .ok true =>
                (⟨[s1, s2, s3,
                   (.loadStage, .loadOk dfFinal.rows.length)], .SUCCESS⟩,
                 [.extractStage, .validateStage, .transformStage, .loadStage])

/-! ## Concrete sample inputs used by witnesses and counterexamples -/

/-- A sample row with the given title, description and timestamp. -/
def mkSampleRow (t d : Option String) (p : Option TimeVal) : Row :=
  { title := t, description := d, url := some "https://example.com/a",
    publishedAt := p, source_name := some "Example", extracted_at := some 0 }

/-- A ten-row raw table: two duplicate `(title, publishedAt)` pairs and
one five-character title (the scenario table of the spec). -/
def sampleTable10 : Table :=
  { hasTitle := true, hasDescription := true, hasUrl := true,
    hasPublishedAt := true, hasSourceName := true, hasExtractedAt := true,
    rows :=
      [ mkSampleRow (some "A title long enough 1")
          (some "a description long enough 1") (some (.raw 1)),
        mkSampleRow (some "A title long enough 2")
          (some "a description long enough 2") (some (.raw 2)),
        mkSampleRow (some "A title long enough 2")
          (some "a description long enough 2") (some (.raw 2)),
        mkSampleRow (some "A title long enough 3")
          (some "a description long enough 3") (some (.raw 3)),
        mkSampleRow (some "A title long enough 3")
          (some "a description long enough 3") (some (.raw 3)),
        mkSampleRow (some "short")
          (some "a description long enough 4") (some (.raw 4)),
        mkSampleRow (some "A title long enough 5")
          (some "a description long enough 5") (some (.raw 5)),
        mkSampleRow (some "A title long enough 6")
          (some "a description long enough 6") (some (.raw 6)),
        mkSampleRow (some "A title long enough 7")
          (some "a description long enough 7") (some (.raw 7)),
        mkSampleRow (some "A title long enough 8")
          (some "a description long enough 8") (some (.raw 8)) ] }

/-- The validation outcome on the ten-row sample. -/
def sampleRes10 : ValidateResult :=
  (validate_news_data 1000000 sampleTable10).getD
    ⟨emptyTable, emptyTable, emptyInputReport⟩

/-- A single sample row with a still-unparsed timestamp. -/
def sampleRow1 : Row :=
  mkSampleRow (some "A title long enough 1")
    (some "a description long enough 1") (some (.raw 0))

/-- A duplicate-free one-row table with a still-unparsed timestamp. -/
def sampleTable1 : Table :=
  { hasTitle := true, hasDescription := true, hasUrl := true,
    hasPublishedAt := true, hasSourceName := true, hasExtractedAt := true,
    rows := [sampleRow1] }

/-- The validation outcome on the one-row sample. -/
def sampleRes1 : ValidateResult :=
  (validate_news_data 100 sampleTable1).getD
    ⟨emptyTable, emptyTable, emptyInputReport⟩

/-- A sample article of a decoded API response. -/
def sampleArticle : Article :=
  { title := some "T", description := some "D", url := some "u",
    publishedAt := some 5, source := some (.dict (some "CNN")) }

/-- A 304 (non-2xx, non-error) HTTP response whose body is a valid
success envelope with one article. -/
def sampleApi304 : ApiResult :=
  .response 304
    (.json { status := some "ok", message := none,
             articles := some [sampleArticle] })

/-- A sample enriched row whose `extracted_at` cell is null. -/
def sampleEnrichedRow : EnrichedRow :=
  { title := some "T", description := some "D", url := some "u",
    publishedAt := some (.parsed 5), source_name := some "S",
    extracted_at := none, sentiment_compound := 0, sentiment_positive := 0,
    sentiment_negative := 0, sentiment_neutral := 1,
    sentiment_label := "neutral", date := some 0, hour := some 0,
    day_of_week := some "Thursday" }

/-- An enriched table that lacks the `extracted_at` column but has all
other schema columns. -/
def sampleNoExtractedAt : EnrichedTable :=
  { hasTitle := true, hasDescription := true, hasUrl := true,
    hasSourceName := true, hasPublishedAt := true, hasDate := true,
    hasHour := true, hasExtractedAt := false, rows := [sampleEnrichedRow] }

/-- An enriched table with every schema column including
`extracted_at`. -/
def sampleEnrichedFull : EnrichedTable :=
  { hasTitle := true, hasDescription := true, hasUrl := true,
    hasSourceName := true, hasPublishedAt := true, hasDate := true,
    hasHour := true, hasExtractedAt := true,
    rows := [{ sampleEnrichedRow with extracted_at := some 42 }] }

/-- A constant sentiment analyzer used as a concrete collaborator. -/
def sampleAnalyzer : String → SentimentScores :=
  fun _ => { compound := 1 / 10, pos := 1 / 2, neg := 0, neu := 1 / 2 }

/-- A stage environment whose extraction returns no articles. -/
def sampleEnvEmptyExtract : PipelineEnv :=
  { extract := .ok { emptyTable with hasTitle := true },
    validate := fun _ => .exc "unused",
    transform := fun _ => .exc "unused",
    load := fun _ => .exc "unused" }

/-- A stage environment where the first three stages succeed with
non-empty results and the load stage returns `false`. -/
def sampleEnvLoadFails : PipelineEnv :=
  { extract := .ok sampleTable1,
    validate := fun _ => .ok (sampleTable1, emptyInputReport),
    transform := fun _ => .ok sampleEnrichedFull,
    load := fun _ => .ok false }

/-! ## Helper lemmas -/

lemma dedupFrom_nil (seen : List (Option String × Option TimeVal)) :
    dedupFrom seen [] = [] := rfl

lemma dedupFrom_cons (seen : List (Option String × Option TimeVal))
    (a : Row) (t : List Row) :
    dedupFrom seen (a :: t) =
      if rowKey a ∈ seen then dedupFrom seen t
      else a :: dedupFrom (rowKey a :: seen) t := rfl

lemma dedupFrom_subset (l : List Row) :
    ∀ (seen : List (Option String × Option TimeVal)) (r : Row),
      r ∈ dedupFrom seen l → r ∈ l := by
  induction l with
  | nil => intro seen r hr; simp [dedupFrom_nil] at hr
  | cons a t ih =>
    intro seen r hr
    rw [dedupFrom_cons] at hr
    split at hr
    · exact List.mem_cons_of_mem a (ih _ r hr)
    · rcases List.mem_cons.mp hr with h1 | h1
      · exact h1 ▸ List.mem_cons_self a t
      · exact List.mem_cons_of_mem a (ih _ r h1)

lemma dedupFrom_key_not_mem (l : List Row) :
    ∀ (seen : List (Option String × Option TimeVal)) (r : Row),
      r ∈ dedupFrom seen l → rowKey r ∉ seen := by
  induction l with
  | nil => intro seen r hr; simp [dedupFrom_nil] at hr
  | cons a t ih =>
    intro seen r hr
    rw [dedupFrom_cons] at hr
    split at hr
    · exact ih seen r hr
    · rcases List.mem_cons.mp hr with h1 | h1
      · subst h1; assumption
      · intro hc
        exact ih _ r h1 (List.mem_cons_of_mem _ hc)

lemma dedupFrom_pairwise (l : List Row) :
    ∀ seen : List (Option String × Option TimeVal),
      (dedupFrom seen l).Pairwise (fun a b => rowKey a ≠ rowKey b) := by
  induction l with
  | nil => intro seen; simp [dedupFrom_nil]
  | cons a t ih =>
    intro seen
    rw [dedupFrom_cons]
    split
    · exact ih seen
    · refine List.Pairwise.cons ?_ (ih _)
      intro b hb he
      exact dedupFrom_key_not_mem t _ b hb (by rw [← he]; exact List.mem_cons_self _ _)

lemma dedupFrom_length_le (l : List Row) :
    ∀ seen : List (Option String × Option TimeVal),
      (dedupFrom seen l).length ≤ l.length := by
  induction l with
  | nil => intro seen; simp [dedupFrom_nil]
  | cons a t ih =>
    intro seen
    rw [dedupFrom_cons]
    split
    · exact Nat.le_succ_of_le (ih seen)
    · simpa using Nat.succ_le_succ (ih _)

lemma cleanTable_rows (df : Table) :
    (cleanTable df).rows =
      (let r2 := dedupRows
        (df.rows.filter (fun r => r.title.isSome && r.description.isSome))
       let r3 := if df.hasTitle then r2.filter titleOK else r2
       if df.hasDescription then r3.filter descOK else r3) := rfl

lemma cleanTable_sublist_dedup (df : Table) :
    (cleanTable df).rows.Sublist
      (dedupRows
        (df.rows.filter (fun r => r.title.isSome && r.description.isSome))) := by
  rw [cleanTable_rows]
  cases df.hasTitle <;> cases df.hasDescription <;>
    simp only [if_true, if_false, Bool.false_eq_true, Bool.true_eq_false] <;>
    first
      | exact List.Sublist.refl _
      | exact List.filter_sublist _
      | exact (List.filter_sublist _).trans (List.filter_sublist _)

lemma cleanTable_pairwise (df : Table) :
    (cleanTable df).rows.Pairwise (fun a b => rowKey a ≠ rowKey b) :=
  (dedupFrom_pairwise _ []).sublist (cleanTable_sublist_dedup df)

lemma cleanTable_length_le (df : Table) :
    (cleanTable df).rows.length ≤ df.rows.length :=
  le_trans (cleanTable_sublist_dedup df).length_le
    (le_trans (dedupFrom_length_le _ [])
      (List.length_filter_le _ df.rows))

lemma cleanTable_mem (df : Table) (ht : df.hasTitle = true)
    (hd : df.hasDescription = true) (r : Row)
    (hr : r ∈ (cleanTable df).rows) :
    titleOK r = true ∧ descOK r = true := by
  rw [cleanTable_rows] at hr
  simp only [ht, hd, if_true] at hr
  rcases List.mem_filter.mp hr with ⟨hr3, hdesc⟩
  rcases List.mem_filter.mp hr3 with ⟨_, htit⟩
  exact ⟨htit, hdesc⟩

lemma parseTimestamps_hasTitle (df : Table) :
    (parseTimestamps df).hasTitle = df.hasTitle := rfl

lemma parseTimestamps_hasDescription (df : Table) :
    (parseTimestamps df).hasDescription = df.hasDescription := rfl

lemma parseTimestamps_length (df : Table) :
    (parseTimestamps df).rows.length = df.rows.length := by
  simp [parseTimestamps]

lemma checkPhase_some_inv (now : Int) (df df3 : Table)
    (h : checkPhase now df = some df3) :
    df.hasTitle = true ∧ df.hasPublishedAt = true ∧
    (duplicateCount df.rows = 0 →
      (freshnessReport now (parseTimestamps df).rows).isSome = true) ∧
    df3 = (if duplicateCount df.rows = 0 then parseTimestamps df else df) := by
  unfold checkPhase at h
  by_cases hb : (df.hasTitle && df.hasPublishedAt) = true
  · obtain ⟨ht, hp⟩ : df.hasTitle = true ∧ df.hasPublishedAt = true := by
      simpa using hb
    refine ⟨ht, hp, ?_⟩
    rw [if_pos hb] at h
    by_cases hdup : duplicateCount df.rows = 0
    · rw [if_pos hdup, if_pos hp] at h
      by_cases hfr : (freshnessReport now (parseTimestamps df).rows).isSome = true
      · rw [if_pos hfr] at h
        injection h with h
        exact ⟨fun _ => hfr, by rw [if_pos hdup, ← h]⟩
      · rw [if_neg hfr] at h; cases h
    · rw [if_neg hdup] at h
      injection h with h
      exact ⟨fun hc => absurd hc hdup, by rw [if_neg hdup, ← h]⟩
  · rw [if_neg hb] at h; cases h

lemma validate_success (now : Int) (df : Table) (res : ValidateResult)
    (h : validate_news_data now df = some res) (hne : df.rows ≠ []) :
    df.hasTitle = true ∧ df.hasPublishedAt = true ∧
    df.hasDescription = true ∧
    (duplicateCount df.rows = 0 →
      (freshnessReport now (parseTimestamps df).rows).isSome = true) ∧
    res.inputAfter =
      (if duplicateCount df.rows = 0 then parseTimestamps df else df) ∧
    res.cleaned = cleanTable res.inputAfter ∧
    res.report = mkReport now df res.inputAfter (cleanTable res.inputAfter) := by
  unfold validate_news_data at h
  rw [show df.rows.isEmpty = false by simp [List.isEmpty_iff, hne]] at h
  simp only [Bool.false_eq_true, if_false] at h
  cases hcp : checkPhase now df with
  | none => rw [hcp] at h; cases h
  | some df3 =>
    rw [hcp] at h
    simp only [Option.some_bind] at h
    obtain ⟨ht, hp, hfr, hdf3⟩ := checkPhase_some_inv now df df3 hcp
    by_cases hdesc : df3.hasDescription = true
    · rw [if_pos hdesc] at h
      injection h with h
      subst h
      refine ⟨ht, hp, ?_, hfr, hdf3, rfl, rfl⟩
      rw [hdf3] at hdesc
      by_cases hdup : duplicateCount df.rows = 0
      · rw [if_pos hdup] at hdesc
        rw [← parseTimestamps_hasDescription df]; exact hdesc
      · rw [if_neg hdup] at hdesc; exact hdesc
    · rw [if_neg hdesc] at h; cases h

lemma titleOK_iff (r : Row) :
    titleOK r = true ↔ ∃ s, r.title = some s ∧ 10 ≤ s.length := by
  unfold titleOK
  cases r.title with
  | none => simp
  | some s => simp

lemma descOK_iff (r : Row) :
    descOK r = true ↔ ∃ s, r.description = some s ∧ 20 ≤ s.length := by
  unfold descOK
  cases r.description with
  | none => simp
  | some s => simp

lemma inputAfter_hasTitle (now : Int) (df : Table) (res : ValidateResult)
    (h : validate_news_data now df = some res) (hne : df.rows ≠ []) :
    res.inputAfter.hasTitle = true ∧ res.inputAfter.hasDescription = true := by
  obtain ⟨ht, _, hd, _, hia, _, _⟩ := validate_success now df res h hne
  rw [hia]
  by_cases hdup : duplicateCount df.rows = 0
  · rw [if_pos hdup]; exact ⟨ht, hd⟩
  · rw [if_neg hdup]; exact ⟨ht, hd⟩

lemma mkReport_fields (now : Int) (df df3 cleaned : Table) :
    (mkReport now df df3 cleaned).initial_records = some df.rows.length ∧
    (mkReport now df df3 cleaned).final_records = some cleaned.rows.length ∧
    (mkReport now df df3 cleaned).removal_percentage =
      some (((df.rows.length - cleaned.rows.length : ℕ) : ℚ) /
        (df.rows.length : ℚ) * 100) ∧
    (mkReport now df df3 cleaned).status =
      (if cleaned.rows.length = 0 then Status.FAILED
       else if 50 < ((df.rows.length - cleaned.rows.length : ℕ) : ℚ) /
          (df.rows.length : ℚ) * 100 then Status.WARNING
       else Status.PASSED) :=
  ⟨rfl, rfl, rfl, rfl⟩

/-! ## The claims -/

/-- C1: for every input table, each row of the cleaned table returned
by `validate_news_data` has a non-null title of length at least 10 and
a non-null description of length at least 20, and the
`(title, publishedAt)` pairs of the cleaned table are pairwise
distinct. -/
theorem C1_cleaned_row_invariants (now : Int) (df : Table)
    (res : ValidateResult) (h : validate_news_data now df = some res) :
    (∀ r ∈ res.cleaned.rows,
        (∃ s, r.title = some s ∧ 10 ≤ s.length) ∧
        (∃ s, r.description = some s ∧ 20 ≤ s.length)) ∧
    res.cleaned.rows.Pairwise
      (fun a b => (a.title, a.publishedAt) ≠ (b.title, b.publishedAt)) := by
  by_cases hne : df.rows = []
  · unfold validate_news_data at h
    rw [hne] at h
    simp only [List.isEmpty_nil, if_true] at h
    injection h with h
    subst h
    constructor
    · intro r hr
      rw [hne] at hr
      simp at hr
    · rw [hne]
      exact List.Pairwise.nil
  · obtain ⟨htI, hdI⟩ := inputAfter_hasTitle now df res h hne
    obtain ⟨_, _, _, _, _, hcl, _⟩ := validate_success now df res h hne
    constructor
    · intro r hr
      rw [hcl] at hr
      obtain ⟨htit, hdesc⟩ := cleanTable_mem res.inputAfter htI hdI r hr
      exact ⟨(titleOK_iff r).mp htit, (descOK_iff r).mp hdesc⟩
    · rw [hcl]
      exact (cleanTable_pairwise res.inputAfter).imp (fun hk hpair => hk hpair)

/-- C1 witness: the invariants instantiated on the concrete ten-row
sample table. -/
theorem C1_witness :
    (∀ r ∈ sampleRes10.cleaned.rows,
        (∃ s, r.title = some s ∧ 10 ≤ s.length) ∧
        (∃ s, r.description = some s ∧ 20 ≤ s.length)) ∧
    sampleRes10.cleaned.rows.Pairwise
      (fun a b => (a.title, a.publishedAt) ≠ (b.title, b.publishedAt)) :=
  C1_cleaned_row_invariants 1000000 sampleTable10 sampleRes10 rfl

/-- C2: for every non-empty input table on which `validate_news_data`
returns, the reported removal percentage equals
`(initial - final) / initial * 100`, the status is `FAILED` exactly
when the cleaned table has zero rows, otherwise `WARNING` exactly when
that percentage exceeds 50, and otherwise `PASSED`. -/
theorem C2_status_derivation (now : Int) (df : Table)
    (res : ValidateResult) (h : validate_news_data now df = some res)
    (hne : df.rows ≠ []) :
    ∃ initial final pct,
      res.report.initial_records = some initial ∧
      res.report.final_records = some final ∧
      res.report.removal_percentage = some pct ∧
      initial = df.rows.length ∧
      final = res.cleaned.rows.length ∧
      pct = ((initial : ℚ) - (final : ℚ)) / (initial : ℚ) * 100 ∧
      (res.report.status = .FAILED ↔ final = 0) ∧
      (final ≠ 0 → (res.report.status = .WARNING ↔ 50 < pct)) ∧
      (final ≠ 0 → ¬ 50 < pct → res.report.status = .PASSED) := by
  obtain ⟨ht, hp, hd, hfr, hia, hcl, hrep⟩ := validate_success now df res h hne
  have hlen : (cleanTable res.inputAfter).rows.length ≤ df.rows.length := by
    refine le_trans (cleanTable_length_le res.inputAfter) ?_
    rw [hia]
    by_cases hdup : duplicateCount df.rows = 0
    · rw [if_pos hdup, parseTimestamps_length]
    · rw [if_neg hdup]
  obtain ⟨hini, hfin, hpct, hstat⟩ :=
    mkReport_fields now df res.inputAfter (cleanTable res.inputAfter)
  have hcast :
      ((df.rows.length - (cleanTable res.inputAfter).rows.length : ℕ) : ℚ) =
        (df.rows.length : ℚ) - ((cleanTable res.inputAfter).rows.length : ℚ) :=
    Nat.cast_sub hlen
  refine ⟨df.rows.length, (cleanTable res.inputAfter).rows.length,
    ((df.rows.length - (cleanTable res.inputAfter).rows.length : ℕ) : ℚ) /
      (df.rows.length : ℚ) * 100,
    ?_, ?_, ?_, rfl, ?_, ?_, ?_, ?_, ?_⟩
  · rw [hrep]; exact hini
  · rw [hrep]; exact hfin
  · rw [hrep]; exact hpct
  · rw [hcl]
  · rw [hcast]
  · rw [hrep, hstat]
    by_cases hf : (cleanTable res.inputAfter).rows.length = 0
    · rw [if_pos hf]; simp [hf]
    · rw [if_neg hf]
      constructor
      · intro hc
        by_cases hw : 50 <
            ((df.rows.length - (cleanTable res.inputAfter).rows.length : ℕ) : ℚ) /
              (df.rows.length : ℚ) * 100
        · rw [if_pos hw] at hc; cases hc
        · rw [if_neg hw] at hc; cases hc
      · intro hc; exact absurd hc hf
  · intro hf
    rw [hrep, hstat, if_neg hf]
    by_cases hw : 50 <
        ((df.rows.length - (cleanTable res.inputAfter).rows.length : ℕ) : ℚ) /
          (df.rows.length : ℚ) * 100
    · rw [if_pos hw]; simp [hw]
    · rw [if_neg hw]; simp [hw]
  · intro hf hw
    rw [hrep, hstat, if_neg hf, if_neg hw]

/-- C2 witness: the status derivation instantiated on the concrete
ten-row sample table. -/
theorem C2_witness :
    ∃ initial final pct,
      sampleRes10.report.initial_records = some initial ∧
      sampleRes10.report.final_records = some final ∧
      sampleRes10.report.removal_percentage = some pct ∧
      initial = sampleTable10.rows.length ∧
      final = sampleRes10.cleaned.rows.length ∧
      pct = ((initial : ℚ) - (final : ℚ)) / (initial : ℚ) * 100 ∧
      (sampleRes10.report.status = .FAILED ↔ final = 0) ∧
      (final ≠ 0 → (sampleRes10.report.status = .WARNING ↔ 50 < pct)) ∧
      (final ≠ 0 → ¬ 50 < pct → sampleRes10.report.status = .PASSED) :=
  C2_status_derivation 1000000 sampleTable10 sampleRes10 rfl (by decide)

/-- C8: for every non-empty input on which `validate_news_data`
returns, the report's freshness sub-report is present exactly when the
duplicate count of check 2 is zero and a `publishedAt` column exists,
and the cleaned table always equals the cleaning phase applied to the
post-check table, independently of that gating. -/
theorem C8_freshness_gating (now : Int) (df : Table)
    (res : ValidateResult) (h : validate_news_data now df = some res)
    (hne : df.rows ≠ []) :
    ∃ c, res.report.checks = some c ∧
      c.duplicates = duplicateCount df.rows ∧
      (c.freshness.isSome = true ↔
        (duplicateCount df.rows = 0 ∧ df.hasPublishedAt = true)) ∧
      res.cleaned = cleanTable res.inputAfter ∧
      res.inputAfter =
        (if duplicateCount df.rows = 0 then parseTimestamps df else df) := by
  obtain ⟨ht, hp, hd, hfr, hia, hcl, hrep⟩ := validate_success now df res h hne
  rw [hrep]
  refine ⟨_, rfl, rfl, ?_, hcl, hia⟩
  by_cases hdup : duplicateCount df.rows = 0
  · rw [if_pos ⟨hdup, hp⟩]
    simp [hfr hdup, hdup, hp]
  · rw [if_neg (fun hc => hdup hc.1)]
    simp [hdup]

/-- C8 witness: the freshness gating instantiated on the concrete
one-row duplicate-free sample table. -/
theorem C8_witness :
    ∃ c, sampleRes1.report.checks = some c ∧
      c.duplicates = duplicateCount sampleTable1.rows ∧
      (c.freshness.isSome = true ↔
        (duplicateCount sampleTable1.rows = 0 ∧
          sampleTable1.hasPublishedAt = true)) ∧
      sampleRes1.cleaned = cleanTable sampleRes1.inputAfter ∧
      sampleRes1.inputAfter =
        (if duplicateCount sampleTable1.rows = 0 then
          parseTimestamps sampleTable1 else sampleTable1) :=
  C8_freshness_gating 100 sampleTable1 sampleRes1 rfl (by decide)

/-- C9 counterexample: on a concrete duplicate-free one-row table the
call succeeds, yet the caller's table is not left identical — check 3
replaced the `publishedAt` column in place by its parsed values. -/
theorem C9_counterexample :
    (validate_news_data 100 sampleTable1).isSome = true ∧
    (validate_news_data 100 sampleTable1).map ValidateResult.inputAfter ≠
      some sampleTable1 := by
  constructor
  · decide
  · decide

/-- C9 (amended): the check phase leaves the row count and the title,
description, url, source and timestamp instants of the input table
unchanged, but when check 2 finds no duplicates (and a `publishedAt`
column exists) it replaces the `publishedAt` column in place by its
parsed timezone-aware values; otherwise the table is untouched. -/
theorem C9_checks_mutate_only_publishedAt (now : Int) (df : Table)
    (res : ValidateResult) (h : validate_news_data now df = some res)
    (hne : df.rows ≠ []) :
    res.inputAfter =
      (if duplicateCount df.rows = 0 then parseTimestamps df else df) ∧
    res.inputAfter.rows.length = df.rows.length ∧
    res.inputAfter.rows.map Row.title = df.rows.map Row.title ∧
    res.inputAfter.rows.map Row.description = df.rows.map Row.description ∧
    res.inputAfter.rows.map Row.url = df.rows.map Row.url ∧
    res.inputAfter.rows.map Row.source_name = df.rows.map Row.source_name ∧
    res.inputAfter.rows.map (fun r => r.publishedAt.map TimeVal.value) =
      df.rows.map (fun r => r.publishedAt.map TimeVal.value) := by
  obtain ⟨_, _, _, _, hia, _, _⟩ := validate_success now df res h hne
  rw [hia]
  by_cases hdup : duplicateCount df.rows = 0
  · rw [if_pos hdup]
    refine ⟨rfl, parseTimestamps_length df, ?_, ?_, ?_, ?_, ?_⟩
    · simp only [parseTimestamps, List.map_map]; rfl
    · simp only [parseTimestamps, List.map_map]; rfl
    · simp only [parseTimestamps, List.map_map]; rfl
    · simp only [parseTimestamps, List.map_map]; rfl
    · simp only [parseTimestamps, List.map_map]
      apply List.map_congr_left
      intro r _
      cases hpa : r.publishedAt with
      | none => simp [Function.comp, hpa]
      | some tv => cases tv <;> simp [Function.comp, hpa, TimeVal.toDatetime,
          TimeVal.value]
  · rw [if_neg hdup]
    exact ⟨rfl, rfl, rfl, rfl, rfl, rfl, rfl⟩

/-- C9 witness: the amended statement instantiated on the concrete
one-row sample table. -/
theorem C9_witness :
    sampleRes1.inputAfter =
      (if duplicateCount sampleTable1.rows = 0 then
        parseTimestamps sampleTable1 else sampleTable1) ∧
    sampleRes1.inputAfter.rows.length = sampleTable1.rows.length ∧
    sampleRes1.inputAfter.rows.map Row.title =
      sampleTable1.rows.map Row.title ∧
    sampleRes1.inputAfter.rows.map Row.description =
      sampleTable1.rows.map Row.description ∧
    sampleRes1.inputAfter.rows.map Row.url =
      sampleTable1.rows.map Row.url ∧
    sampleRes1.inputAfter.rows.map Row.source_name =
      sampleTable1.rows.map Row.source_name ∧
    sampleRes1.inputAfter.rows.map (fun r => r.publishedAt.map TimeVal.value) =
      sampleTable1.rows.map (fun r => r.publishedAt.map TimeVal.value) :=
  C9_checks_mutate_only_publishedAt 100 sampleTable1 sampleRes1 rfl (by decide)

/-- C10: on an empty input table `validate_news_data` returns without
raising, hands back the input table itself, and the report holds
exactly status FAILED and reason Empty dataframe, with none of the
count fields or check sub-reports of a non-empty run. -/
theorem C10_empty_input (now : Int) (df : Table) (hrows : df.rows = []) :
    validate_news_data now df = some
      ⟨df, df,
        { status := .FAILED, reason := some "Empty dataframe",
          initial_records := none, checks := none, final_records := none,
          removed_records := none, removal_percentage := none }⟩ := by
  unfold validate_news_data
  rw [hrows]
  rfl

/-- C10 witness: the empty-input behaviour on the concrete empty
table. -/
theorem C10_witness :
    validate_news_data 0 emptyTable = some
      ⟨emptyTable, emptyTable,
        { status := .FAILED, reason := some "Empty dataframe",
          initial_records := none, checks := none, final_records := none,
          removed_records := none, removal_percentage := none }⟩ :=
  C10_empty_input 0 emptyTable rfl

lemma categorize_sentiment_spec (c : ℚ) :
    (categorize_sentiment c = "positive" ↔ (5 : ℚ) / 100 ≤ c) ∧
    (categorize_sentiment c = "negative" ↔ c ≤ -((5 : ℚ) / 100)) ∧
    (categorize_sentiment c = "neutral" ↔
      (-((5 : ℚ) / 100) < c ∧ c < (5 : ℚ) / 100)) := by
  unfold categorize_sentiment
  by_cases h1 : (5 : ℚ) / 100 ≤ c
  · rw [if_pos h1]
    have hno : ¬ c ≤ -((5 : ℚ) / 100) := by intro hc; linarith
    refine ⟨⟨fun _ => h1, fun _ => rfl⟩, ?_, ?_⟩
    · exact ⟨fun hs => absurd hs (by decide), fun hc => absurd hc hno⟩
    · exact ⟨fun hs => absurd hs (by decide),
        fun hc => absurd h1 (not_le.mpr hc.2)⟩
  · rw [if_neg h1]
    by_cases h2 : c ≤ -((5 : ℚ) / 100)
    · rw [if_pos h2]
      refine ⟨?_, ⟨fun _ => h2, fun _ => rfl⟩, ?_⟩
      · exact ⟨fun hs => absurd hs (by decide), fun hc => absurd hc h1⟩
      · exact ⟨fun hs => absurd hs (by decide),
          fun hc => absurd h2 (not_le.mpr hc.1)⟩
    · rw [if_neg h2]
      refine ⟨?_, ?_, ⟨fun _ => ⟨not_le.mp h2, not_le.mp h1⟩, fun _ => rfl⟩⟩
      · exact ⟨fun hs => absurd hs (by decide), fun hc => absurd hc h1⟩
      · exact ⟨fun hs => absurd hs (by decide), fun hc => absurd hc h2⟩

/-- C3: every row of the transformer's output carries a label that is
the pure threshold function of its own compound score: positive
exactly when the compound is at least 0.05, negative exactly when it
is at most -0.05, neutral exactly in between, hence always one of the
three. -/
theorem C3_sentiment_label (analyzer : String → SentimentScores)
    (df : Table) (r : EnrichedRow)
    (hr : r ∈ (add_sentiment_analysis analyzer df).rows) :
    r.sentiment_label = categorize_sentiment r.sentiment_compound ∧
    (r.sentiment_label = "positive" ↔
      (5 : ℚ) / 100 ≤ r.sentiment_compound) ∧
    (r.sentiment_label = "negative" ↔
      r.sentiment_compound ≤ -((5 : ℚ) / 100)) ∧
    (r.sentiment_label = "neutral" ↔
      (-((5 : ℚ) / 100) < r.sentiment_compound ∧
        r.sentiment_compound < (5 : ℚ) / 100)) ∧
    (r.sentiment_label = "positive" ∨ r.sentiment_label = "negative" ∨
      r.sentiment_label = "neutral") := by
  have hlab : r.sentiment_label = categorize_sentiment r.sentiment_compound := by
    unfold add_sentiment_analysis at hr
    by_cases hemp : df.rows.isEmpty = true
    · rw [if_pos hemp] at hr
      simp at hr
    · rw [if_neg hemp] at hr
      simp only at hr
      obtain ⟨r0, _, heq⟩ := List.mem_map.mp hr
      rw [← heq]
      rfl
  obtain ⟨hpiff, hniff, huiff⟩ :=
    categorize_sentiment_spec r.sentiment_compound
  rw [hlab]
  refine ⟨rfl, hpiff, hniff, huiff, ?_⟩
  unfold categorize_sentiment
  by_cases h1 : (5 : ℚ) / 100 ≤ r.sentiment_compound
  · rw [if_pos h1]; exact Or.inl rfl
  · rw [if_neg h1]
    by_cases h2 : r.sentiment_compound ≤ -((5 : ℚ) / 100)
    · rw [if_pos h2]; exact Or.inr (Or.inl rfl)
    · rw [if_neg h2]; exact Or.inr (Or.inr rfl)

/-- C3 witness: the labelling property on the concrete enriched row
produced by the constant sample analyzer on the one-row table. -/
theorem C3_witness :
    (enrichRow sampleAnalyzer sampleTable1 sampleRow1).sentiment_label =
      categorize_sentiment
        (enrichRow sampleAnalyzer sampleTable1 sampleRow1).sentiment_compound ∧
    ((enrichRow sampleAnalyzer sampleTable1 sampleRow1).sentiment_label =
        "positive" ↔
      (5 : ℚ) / 100 ≤
        (enrichRow sampleAnalyzer sampleTable1 sampleRow1).sentiment_compound) ∧
    ((enrichRow sampleAnalyzer sampleTable1 sampleRow1).sentiment_label =
        "negative" ↔
      (enrichRow sampleAnalyzer sampleTable1 sampleRow1).sentiment_compound ≤
        -((5 : ℚ) / 100)) ∧
    ((enrichRow sampleAnalyzer sampleTable1 sampleRow1).sentiment_label =
        "neutral" ↔
      (-((5 : ℚ) / 100) <
          (enrichRow sampleAnalyzer sampleTable1 sampleRow1).sentiment_compound ∧
        (enrichRow sampleAnalyzer sampleTable1 sampleRow1).sentiment_compound <
          (5 : ℚ) / 100)) ∧
    ((enrichRow sampleAnalyzer sampleTable1 sampleRow1).sentiment_label =
        "positive" ∨
      (enrichRow sampleAnalyzer sampleTable1 sampleRow1).sentiment_label =
        "negative" ∨
      (enrichRow sampleAnalyzer sampleTable1 sampleRow1).sentiment_label =
        "neutral") :=
  C3_sentiment_label sampleAnalyzer sampleTable1
    (enrichRow sampleAnalyzer sampleTable1 sampleRow1)
    (List.mem_singleton.mpr rfl)

/-- C4: when extraction returns an empty table the runner halts after
stage 1 with overall status FAILED and an extract step outcome, and
the invocation trace holds only the extract stage — the validate,
transform and load stage functions are never applied. -/
theorem C4_empty_extraction_halts (env : PipelineEnv) (df : Table)
    (hext : env.extract = .ok df) (hempty : df.rows = []) :
    run_full_pipeline env =
      (⟨[(.extractStage, .extractNoData)], .FAILED⟩, [.extractStage]) := by
  simp [run_full_pipeline, hext, hempty]

/-- C4 witness: the halt on the concrete environment whose extraction
yields a zero-row table. -/
theorem C4_witness :
    run_full_pipeline sampleEnvEmptyExtract =
      (⟨[(.extractStage, .extractNoData)], .FAILED⟩, [.extractStage]) :=
  C4_empty_extraction_halts sampleEnvEmptyExtract
    { emptyTable with hasTitle := true } rfl rfl

/-- C5: when the first three stages succeed with non-empty results and
the load stage returns false or raises, the run finishes with overall
status WARNING — never FAILED. -/
theorem C5_load_failure_warns (env : PipelineEnv) (df dfClean : Table)
    (rep : QualityReport) (dfFinal : EnrichedTable)
    (hext : env.extract = .ok df) (h1 : df.rows ≠ [])
    (hval : env.validate df = .ok (dfClean, rep)) (h2 : dfClean.rows ≠ [])
    (htr : env.transform dfClean = .ok dfFinal) (h3 : dfFinal.rows ≠ [])
    (hload : env.load dfFinal = .ok false ∨
      ∃ msg, env.load dfFinal = .exc msg) :
    (run_full_pipeline env).1.overall_status = .WARNING ∧
    (run_full_pipeline env).1.overall_status ≠ .FAILED := by
  rcases hload with hl | ⟨msg, hl⟩ <;>
    simp [run_full_pipeline, hext, hval, htr, hl, List.isEmpty_iff,
      h1, h2, h3]

/-- C5 witness: the degradation to WARNING on the concrete environment
whose load stage returns false. -/
theorem C5_witness :
    (run_full_pipeline sampleEnvLoadFails).1.overall_status = .WARNING ∧
    (run_full_pipeline sampleEnvLoadFails).1.overall_status ≠ .FAILED :=
  C5_load_failure_warns sampleEnvLoadFails sampleTable1 sampleTable1
    emptyInputReport sampleEnrichedFull rfl (by decide) rfl (by decide)
    rfl (by decide) (Or.inl rfl)

/-- C6 counterexample: a 304 response is not a 2xx response, yet when
its body parses as a valid success envelope with one article the
extractor returns a non-empty table — `raise_for_status` only raises
for status codes 400-599, so a non-2xx code below 400 is not treated
as an HTTP error. -/
theorem C6_counterexample :
    (304 < 200 ∨ 300 ≤ 304) ∧
    extract_financial_news sampleApi304 7 ≠ emptyTable ∧
    (extract_financial_news sampleApi304 7).rows.length = 1 := by
  refine ⟨Or.inr (by decide), ?_, ?_⟩
  · decide
  · decide

/-- C6 (amended): on any network/request failure, any response with a
4xx or 5xx status code (the exact 400-599 range for which
`raise_for_status` raises), a malformed JSON body, a missing status or
articles key, or a non-ok API status, `extract_financial_news`
returns an empty table; it never raises to its caller (the embedding
is a total function because every exception path of the source is
caught).  Non-2xx codes outside 400-599 are not treated as HTTP
errors. -/
theorem C6_failure_returns_empty (api : ApiResult) (now : Int)
    (hfail :
      (∃ msg, api = .requestError msg) ∨
      (∃ code body, api = .response code body ∧ 400 ≤ code ∧ code < 600) ∨
      (∃ code, api = .response code .malformed) ∨
      (∃ code envl, api = .response code (.json envl) ∧
        (envl.status = none ∨
         (∃ st, envl.status = some st ∧ st ≠ "ok") ∨
         envl.articles = none))) :
    extract_financial_news api now = emptyTable := by
  rcases hfail with ⟨msg, rfl⟩ | ⟨code, body, rfl, hc⟩ | ⟨code, rfl⟩ |
    ⟨code, envl, rfl, henv⟩
  · rfl
  · simp [extract_financial_news, hc.1, hc.2]
  · by_cases hc : 400 ≤ code ∧ code < 600
    · simp [extract_financial_news, hc.1, hc.2]
    · simp [extract_financial_news, hc]
  · by_cases hc : 400 ≤ code ∧ code < 600
    · simp [extract_financial_news, hc.1, hc.2]
    · rcases henv with hst | ⟨st, hst, hnok⟩ | hart
      · simp [extract_financial_news, hc, hst]
      · simp [extract_financial_news, hc, hst, hnok]
      · cases hst : envl.status with
        | none => simp [extract_financial_news, hc, hst]
        | some st =>
          by_cases hok : st = "ok"
          · subst hok
            simp [extract_financial_news, hc, hst, hart]
          · simp [extract_financial_news, hc, hst, hok]

/-- C6 witness: the empty result on a concrete connection failure. -/
theorem C6_witness :
    extract_financial_news (.requestError "connection timed out") 0 =
      emptyTable :=
  C6_failure_returns_empty (.requestError "connection timed out") 0
    (Or.inl ⟨"connection timed out", rfl⟩)

/-- C7 counterexample: an enriched table with every schema column
except `extracted_at` loads successfully both times, but the loader
stamps the missing `extracted_at` with the wall-clock time of each
call, so a second run at a later time leaves different contents than
the single first run had left. -/
theorem C7_counterexample :
    (load_to_duckdb sampleNoExtractedAt 0 none).2 = true ∧
    (load_to_duckdb sampleNoExtractedAt 1
      (load_to_duckdb sampleNoExtractedAt 0 none).1).2 = true ∧
    (load_to_duckdb sampleNoExtractedAt 1
        (load_to_duckdb sampleNoExtractedAt 0 none).1).1 ≠
      (load_to_duckdb sampleNoExtractedAt 0 none).1 := by
  refine ⟨rfl, rfl, ?_⟩
  intro h
  have h2 := congrArg (fun d => d.map (fun l => l.map DbRow.extracted_at)) h
  simp [load_to_duckdb, sampleNoExtractedAt, toDbRow,
    allColumnsPresent] at h2

/-- C7 (amended): running the loader twice against the same enriched
table always leaves the `news_sentiment` table with the same row
count as one run, and with exactly the same contents whenever the
table carries an `extracted_at` column (as every pipeline-produced
enriched table does) — the table is dropped and recreated on every
call, never appended. -/
theorem C7_load_idempotent (df : EnrichedTable) (now1 now2 : Int)
    (db : Database) :
    dbCount (load_to_duckdb df now2 (load_to_duckdb df now1 db).1).1 =
      dbCount (load_to_duckdb df now1 db).1 ∧
    (df.hasExtractedAt = true →
      (load_to_duckdb df now2 (load_to_duckdb df now1 db).1).1 =
        (load_to_duckdb df now1 db).1) := by
  by_cases he : df.rows.isEmpty = true
  · simp [load_to_duckdb, he]
  · by_cases hall : allColumnsPresent df = true
    · constructor
      · simp [load_to_duckdb, he, hall, dbCount]
      · intro hEx
        have hfun : toDbRow df.hasExtractedAt now2 =
            toDbRow df.hasExtractedAt now1 := by
          funext r
          simp [toDbRow, hEx]
        simp [load_to_duckdb, he, hall, hfun]
    · simp [load_to_duckdb, he, hall]

/-- C7 witness: the idempotence on the concrete full-schema enriched
table, loaded at two different wall-clock times. -/
theorem C7_witness :
    dbCount (load_to_duckdb sampleEnrichedFull 5
        (load_to_duckdb sampleEnrichedFull 3 none).1).1 =
      dbCount (load_to_duckdb sampleEnrichedFull 3 none).1 ∧
    (load_to_duckdb sampleEnrichedFull 5
        (load_to_duckdb sampleEnrichedFull 3 none).1).1 =
      (load_to_duckdb sampleEnrichedFull 3 none).1 :=
  ⟨(C7_load_idempotent sampleEnrichedFull 3 5 none).1,
   (C7_load_idempotent sampleEnrichedFull 3 5 none).2 rfl⟩

end FinNews
